import Mathlib

/-!
# SafeSignal — verification of the signal-fusion and emergency pipeline

Shallow embedding of the SafeSignal repository's core logic:

* `src/utils/riskEngine.js`                — weighted risk fusion
* `src/utils/audio/stressInference.js`     — deviation-based stress scoring,
  spike limiter, adaptive noise compensation
* `src/utils/audio/featureExtractor.js`    — per-frame acoustic features
* the audio pipeline controller            — calibration gating, noise floor
* `src/utils/gesturePipeline.js`           — fist confidence and hold logic
* the Dashboard pre-alert countdown        — cancellable emergency trigger

JavaScript numbers are modelled as `ℚ`.  Where the source can produce `NaN`
(division `0/0` on a zero-length frame) the embedded function returns
`Option ℚ`, with `none` standing for `NaN`.  `Math.sqrt` is irrational in
general; where its exact value can matter to a comparison the comparison is
embedded exactly on the squared values (`Math.sqrt d < t ↔ d < t^2` for
`0 ≤ d`, `0 ≤ t`), and elsewhere it is embedded by the rational
approximation `ratSqrt` (no theorem below depends on the value).
-/

namespace SafeSignal

/-- `Math.min(Math.max(x, 0), 1)` — clamp to `[0,1]` as in the source. -/
def clamp01 (x : ℚ) : ℚ := min (max x 0) 1

/-- `calculateRisk` from `src/utils/riskEngine.js` (lines 10–23):
weighted sum `gesture·0.5 + stress·0.3 + motion·0.2`, clamped to `[0,1]`. -/
def calculateRisk (gestureScore stressScore motionScore : ℚ) : ℚ :=
  clamp01 (gestureScore * 0.5 + stressScore * 0.3 + motionScore * 0.2)

/-- Rational stand-in for `Math.sqrt` (monotone integer square root lifted to
`ℚ`); used only where no theorem depends on the square root's value. -/
def ratSqrt (q : ℚ) : ℚ :=
  (Nat.sqrt (q.num.toNat * q.den) : ℚ) / (q.den : ℚ)

/-! ## Spike limiter (`stressInference.js`, lines 186–194) -/

/-- `SPIKE_LIMIT` — maximum allowed stress increase per processing step. -/
def SPIKE_LIMIT : ℚ := 0.15

/-- `_applySpikeLimiter` from `stressInference.js`: if the increase over the
stored previous score exceeds `SPIKE_LIMIT`, cap at `previous + SPIKE_LIMIT`;
no limit on decrease.  Returns `(returned score, updated previousStressScore)`;
the source assigns `previousStressScore = newScore` unconditionally, so the
two components coincide by construction. -/
def applySpikeLimiter (previousStressScore newScore : ℚ) : ℚ × ℚ :=
  let limited :=
    if newScore - previousStressScore > SPIKE_LIMIT then
      previousStressScore + SPIKE_LIMIT
    else newScore
  (limited, limited)

/-! ## Feature statistics (`featureExtractor.js`, `calculateStats`, lines 160–170) -/

/-- Result record of `calculateStats`. -/
structure Stats where
  mean : ℚ
  std : ℚ
  variance : ℚ
  minV : ℚ
  maxV : ℚ
deriving DecidableEq

/-- `calculateStats` from `featureExtractor.js`: mean, population variance,
standard deviation (`Math.sqrt` embedded as `ratSqrt`; no theorem depends on
its value), minimum and maximum of a list; all zero on the empty list. -/
def calculateStats (values : List ℚ) : Stats :=
  match values with
  | [] => ⟨0, 0, 0, 0, 0⟩
  | v :: vs =>
    let n : ℚ := (v :: vs).length
    let mean := (v :: vs).sum / n
    let variance := (((v :: vs).map (fun b => (b - mean) ^ 2)).sum) / n
    ⟨mean, ratSqrt variance, variance, vs.foldl min v, vs.foldl max v⟩

/-! ## Stress inference (`stressInference.js`) -/

/-- `VAD_MIN_RMS` — minimum mean RMS for the window to count as speech. -/
def VAD_MIN_RMS : ℚ := 0.01

/-- `NOISE_HIGH_THRESHOLD` — ambient noise floor above which noise
compensation is applied. -/
def NOISE_HIGH_THRESHOLD : ℚ := 0.05

/-- Calibration baseline `{ pitch, rms, centroid }`. -/
structure Baseline where
  pitch : ℚ
  rms : ℚ
  centroid : ℚ
deriving DecidableEq

/-- Feature matrix as produced by `buildFeatureMatrix` (`featureExtractor.js`,
lines 131–153); the `timestamps` field is omitted as it is read by no
embedded function. -/
structure FeatureMatrix where
  mfcc : List (List ℚ)
  pitch : List ℚ
  rms : List ℚ
  zcr : List ℚ
  spectralCentroid : List ℚ
deriving DecidableEq

/-- Squared frame-to-frame difference, summed over coefficients, for one
adjacent pair of MFCC rows (inner loop of `_calculateMFCCTemporalVariance`;
rows have uniform width `numCoeffs` as built by `buildFeatureMatrix`). -/
def mfccFrameDiffSq (prevRow curRow : List ℚ) : ℚ :=
  (List.zipWith (fun a b => (b - a) ^ 2) prevRow curRow).sum

/-- `_calculateMFCCTemporalVariance` from `stressInference.js` (lines
202–216): 0 for fewer than two rows, otherwise the square root of the total
adjacent-row squared difference divided by `(rows − 1)` and by the
coefficient count.  `Math.sqrt` is embedded as `ratSqrt`; no theorem depends
on the value. -/
def calculateMFCCTemporalVariance (mfccMatrix : List (List ℚ)) : ℚ :=
  match mfccMatrix with
  | [] => 0
  | [_] => 0
  | m0 :: rest =>
    let numCoeffs : ℚ := m0.length
    let totalDifference := (List.zipWith mfccFrameDiffSq (m0 :: rest) rest).sum
    ratSqrt (totalDifference / (rest.length : ℚ) / numCoeffs)

/-- Adaptive noise compensation (`computeStressScore`, lines 92–103): start
from the default weights `wPitch = 0.30`, `wRMS = 0.25`; when the noise floor
exceeds `NOISE_HIGH_THRESHOLD`, reduce the RMS weight by 20 % of its own
value and add the reduction to the pitch weight.  Returns `(wPitch, wRMS)`. -/
def noiseAdjustedWeights (noiseFloor : ℚ) : ℚ × ℚ :=
  let wPitch : ℚ := 0.30
  let wRMS : ℚ := 0.25
  if noiseFloor > NOISE_HIGH_THRESHOLD then
    let rmsReduction := wRMS * 0.20
    (wPitch + rmsReduction, wRMS - rmsReduction)
  else (wPitch, wRMS)

/-- Fallback absolute scoring used when no usable baseline is available
(`computeStressScore`, lines 76–81): `(pitchScore, rmsScore, centroidScore)`. -/
def fallbackScores (pitchStats rmsStats centroidStats : Stats) : ℚ × ℚ × ℚ :=
  (min (pitchStats.std / 50) 1,
   min (rmsStats.variance / 0.05) 1,
   min (centroidStats.mean / 3000) 1)

/-- Steps 2–5 of `computeStressScore` (lines 56–113): feature statistics,
deviation or fallback scoring, adaptive weights, weighted combination, and
the clamp to `[0,1]`.  Factored out of the gate/limiter shell so that every
exit of `computeStressScore` is literally `applySpikeLimiter prev raw`. -/
def rawClampedStress (fm : FeatureMatrix) (baseline : Option Baseline)
    (noiseFloor : ℚ) : ℚ :=
  let rmsStats := calculateStats fm.rms
  let voicedPitch := fm.pitch.filter (fun p => p > 0)
  let pitchStats := calculateStats (if voicedPitch.length > 0 then voicedPitch else [0])
  let zcrStats := calculateStats fm.zcr
  let centroidStats := calculateStats fm.spectralCentroid
  let mfccVariance := calculateMFCCTemporalVariance fm.mfcc
  let scores :=
    match baseline with
    | some b =>
      if b.pitch > 0 ∧ b.rms > 0 ∧ b.centroid > 0 then
        (min (|pitchStats.mean - b.pitch| / max b.pitch 1) 1,
         min (|rmsStats.mean - b.rms| / max b.rms 0.001) 1,
         min (|centroidStats.mean - b.centroid| / max b.centroid 1) 1)
      else fallbackScores pitchStats rmsStats centroidStats
    | none => fallbackScores pitchStats rmsStats centroidStats
  let mfccScore := min (mfccVariance / 10) 1
  let zcrScore := min (zcrStats.variance / 0.01) 1
  let w := noiseAdjustedWeights noiseFloor
  let rawScore :=
    scores.1 * w.1 + scores.2.1 * w.2 + mfccScore * 0.20 +
      scores.2.2 * 0.15 + zcrScore * 0.10
  max 0 (min 1 rawScore)

/-- `computeStressScore` from `stressInference.js` (lines 44–117).  The
module-level `previousStressScore` is passed and returned explicitly:
the result is `(returned score, updated previousStressScore)`.  A `none`
feature matrix models the JavaScript `!featureMatrix` guard. -/
def computeStressScore (featureMatrix : Option FeatureMatrix)
    (baseline : Option Baseline) (noiseFloor : ℚ)
    (previousStressScore : ℚ) : ℚ × ℚ :=
  match featureMatrix with
  | none => applySpikeLimiter previousStressScore 0
  | some fm =>
    if fm.pitch.length = 0 then
      applySpikeLimiter previousStressScore 0
    else if (calculateStats fm.rms).mean < VAD_MIN_RMS then
      applySpikeLimiter previousStressScore 0
    else
      applySpikeLimiter previousStressScore (rawClampedStress fm baseline noiseFloor)

/-- An input on which `computeStressScore` is gated out: missing matrix,
empty pitch track, or mean window RMS below the voice-presence threshold. -/
def gatedInput (featureMatrix : Option FeatureMatrix) : Bool :=
  match featureMatrix with
  | none => true
  | some fm =>
    fm.pitch.length == 0 || decide ((calculateStats fm.rms).mean < VAD_MIN_RMS)

/-! ## Temporal smoother (`smoothing.js`, `TemporalSmoother`) -/

/-- State of a `TemporalSmoother`: trailing window length (seconds), retained
`(value, timestamp)` samples, current EMA value, and the EMA coefficient. -/
structure SmootherState where
  windowSeconds : ℚ
  samples : List (ℚ × ℚ)
  smoothedValue : ℚ
  alpha : ℚ
deriving DecidableEq

/-- `new TemporalSmoother(windowSeconds)` — empty sample list, EMA 0,
`alpha = 0.3`. -/
def newSmoother (windowSeconds : ℚ) : SmootherState :=
  ⟨windowSeconds, [], 0, 0.3⟩

/-- `TemporalSmoother.addSample` (`smoothing.js`, lines 192–206): append the
sample, evict samples with `timestamp ≤ timestamp − windowSeconds·1000`, then
set the EMA to the value itself if it is the only retained sample and to
`alpha·value + (1−alpha)·previous` otherwise. -/
def addSample (st : SmootherState) (value timestamp : ℚ) : SmootherState :=
  let appended := st.samples ++ [(value, timestamp)]
  let cutoffTime := timestamp - st.windowSeconds * 1000
  let retained := appended.filter (fun s => s.2 > cutoffTime)
  let smoothedValue :=
    if retained.length = 1 then value
    else st.alpha * value + (1 - st.alpha) * st.smoothedValue
  { st with samples := retained, smoothedValue := smoothedValue }

/-! ## Audio pipeline controller (`audioPipeline.js`, `AudioPipelineController`) -/

/-- `CALIBRATION_DURATION_MS` — length of the calibration phase. -/
def CALIBRATION_DURATION_MS : ℚ := 5000

/-- `MAX_NOISE_SAMPLES` — bound on the noise-floor RMS queue. -/
def MAX_NOISE_SAMPLES : Nat := 20

/-- Pipeline state while running (the fields touched by
`processAudioFrame`; audio-capture handles, the `mfccHistory` kept only for
visualization, and the registered callback are omitted — they are never read
by the processing logic).  The module-level `previousStressScore` of
`stressInference.js` is carried here explicitly. -/
structure PipelineState where
  isCalibrating : Bool
  calibrationStartTime : ℚ
  calibrationSamples : List Baseline
  baseline : Option Baseline
  noiseSamples : List ℚ
  noiseFloor : ℚ
  previousStressScore : ℚ
  smoother : SmootherState
  currentStressScore : ℚ
deriving DecidableEq

/-- Data a single 500 ms processing step reads from the outside world:
the VAD verdict and cleaned-buffer RMS (from the external `AudioProcessor`),
the rolling-window sample count, the extracted feature matrix, and the clock
value `Date.now()`. -/
structure FrameInput where
  hasVoice : Bool
  silentRMS : ℚ
  windowLength : Nat
  featureMatrix : FeatureMatrix
  now : ℚ
deriving DecidableEq

/-- `_computeBaseline` from `audioPipeline.js` (lines 312–320): zeros when no
samples were collected, otherwise the per-field arithmetic mean. -/
def computeBaseline (samples : List Baseline) : Baseline :=
  match samples with
  | [] => ⟨0, 0, 0⟩
  | _ =>
    let n : ℚ := samples.length
    ⟨(samples.map (·.pitch)).sum / n,
     (samples.map (·.rms)).sum / n,
     (samples.map (·.centroid)).sum / n⟩

/-- `processAudioFrame` from `audioPipeline.js` (lines 102–202).  Returns the
new state together with the emitted stress score: `some s` when the step
calls `updateStressScore s`, `none` when it returns without emitting (rolling
window still too short).  Branch order follows the source: silent frame →
noise-floor update and emit 0; short window → no emission; calibrating →
collect a baseline sample, possibly complete calibration, emit 0; otherwise
run `computeStressScore`, smooth it, and emit the smoothed value. -/
def processAudioFrame (st : PipelineState) (inp : FrameInput) :
    PipelineState × Option ℚ :=
  if inp.hasVoice = false then
    let pushed := st.noiseSamples ++ [inp.silentRMS]
    let kept := if pushed.length > MAX_NOISE_SAMPLES then pushed.drop 1 else pushed
    let noiseFloor := kept.sum / (kept.length : ℚ)
    ({ st with
        noiseSamples := kept, noiseFloor := noiseFloor,
        currentStressScore := 0 }, some 0)
  else if inp.windowLength < 1000 then
    (st, none)
  else
    let elapsed := inp.now - st.calibrationStartTime
    if st.isCalibrating = true then
      let voicedPitch := inp.featureMatrix.pitch.filter (fun p => p > 0)
      let pitchStats := calculateStats (if voicedPitch.length > 0 then voicedPitch else [0])
      let rmsStats := calculateStats inp.featureMatrix.rms
      let centroidStats := calculateStats inp.featureMatrix.spectralCentroid
      let samples := st.calibrationSamples ++
        [⟨pitchStats.mean, rmsStats.mean, centroidStats.mean⟩]
      let st' :=
        if elapsed ≥ CALIBRATION_DURATION_MS then
          { st with
              calibrationSamples := samples,
              baseline := some (computeBaseline samples), isCalibrating := false }
        else { st with calibrationSamples := samples }
      ({ st' with currentStressScore := 0 }, some 0)
    else
      let res := computeStressScore (some inp.featureMatrix) st.baseline
        st.noiseFloor st.previousStressScore
      let smoother := addSample st.smoother res.1 inp.now
      let smoothedScore := smoother.smoothedValue
      ({ st with
          previousStressScore := res.2, smoother := smoother,
          currentStressScore := smoothedScore }, some smoothedScore)

/-! ## Dashboard pre-alert state machine (`Dashboard.jsx`) -/

/-- Geographic coordinates `{ lat, lng }`. -/
structure Location where
  lat : ℚ
  lng : ℚ
deriving DecidableEq

/-- `getMockLocation` from `geo.js` — the fallback location used when the
geolocation lookup fails. -/
def getMockLocation : Location := ⟨40.7128, -74.006⟩

/-- An emergency contact `{ name, phone }`. -/
structure Contact where
  name : String
  phone : String
deriving DecidableEq

/-- Payload of the `EmergencyTrigger` event composed by `triggerEmergency`
(`riskEngine.js`, lines 88–105); the wall-clock `timestamp` string is
external and omitted. -/
structure EmergencyData where
  location : Location
  contacts : List Contact
deriving DecidableEq

/-- `handleEmergency` from `Dashboard.jsx` (lines 110–126): try the
geolocation lookup, substitute `getMockLocation` when it fails (the lookup
result is modelled as `Option Location`, `none` = rejected promise), and
compose the emergency payload. -/
def handleEmergency (locationLookup : Option Location)
    (contacts : List Contact) : EmergencyData :=
  { location :=
      match locationLookup with
      | some l => l
      | none => getMockLocation
    contacts := contacts }

/-- Dashboard state relevant to the pre-alert flow: the pre-alert overlay
flag, the countdown value, whether the countdown interval is registered,
whether the 5-second high-risk timeout is pending, and the list of emitted
emergency events (in order). -/
structure DashState where
  showPreAlert : Bool
  countdown : Nat
  countdownActive : Bool
  highRiskTimerPending : Bool
  events : List EmergencyData
deriving DecidableEq

/-- Dashboard initial state. -/
def initDash : DashState := ⟨false, 5, false, false, []⟩

/-- `startCountdown` (`Dashboard.jsx`, lines 82–94): reset the countdown to 5
and register the 1 Hz countdown interval. -/
def startCountdown (st : DashState) : DashState :=
  { st with countdown := 5, countdownActive := true }

/-- One firing of the countdown interval (`startCountdown`'s callback,
lines 84–93): if the previous value is ≤ 1, clear the interval, call
`handleEmergency`, and set the countdown to 0; otherwise decrement.  A tick
of a cleared interval never happens, so it leaves the state unchanged. -/
def countdownTick (locationLookup : Option Location) (contacts : List Contact)
    (st : DashState) : DashState :=
  if st.countdownActive = true then
    if st.countdown ≤ 1 then
      { st with
          countdown := 0, countdownActive := false,
          events := st.events ++ [handleEmergency locationLookup contacts] }
    else { st with countdown := st.countdown - 1 }
  else st

/-- `n` consecutive countdown-interval firings. -/
def runCountdown (locationLookup : Option Location) (contacts : List Contact) :
    Nat → DashState → DashState
  | 0, st => st
  | n + 1, st => runCountdown locationLookup contacts n
      (countdownTick locationLookup contacts st)

/-- `cancelAlert` (`Dashboard.jsx`, lines 97–107): hide the pre-alert
overlay, reset the countdown to 5, clear the countdown interval and the
pending high-risk timeout. -/
def cancelAlert (st : DashState) : DashState :=
  { st with
      showPreAlert := false, countdown := 5, countdownActive := false,
      highRiskTimerPending := false }

/-- Entering the pre-alert: `setShowPreAlert(true); startCountdown()` — this
is both the high-risk-timer callback (lines 45–48) and `handleManualPanic`
(lines 129–132). -/
def enterPreAlert (st : DashState) : DashState :=
  startCountdown { st with showPreAlert := true }

/-! ## Per-frame feature extraction (`featureExtractor.js`) -/

/-- `extractMFCC` (lines 15–26): the Meyda library call is external to the
repository, so its outcome is a parameter — `none` models both a thrown
exception (caught, line 22) and a missing `mfcc` field; either way an
all-zero coefficient vector is returned. -/
def extractMFCC (meydaMfcc : Option (List ℚ)) (numCoefficients : Nat) : List ℚ :=
  match meydaMfcc with
  | some coeffs => coeffs
  | none => List.replicate numCoefficients 0

/-- Autocorrelation at one lag (`extractPitch` inner loop, lines 45–48):
`Σ_{i < len − lag} frame[i]·frame[i+lag]`. -/
def autocorrelation (frame : List ℚ) (lag : Nat) : ℚ :=
  ((List.range (frame.length - lag)).map
    (fun i => frame.getD i 0 * frame.getD (i + lag) 0)).sum

/-- The lags visited by `extractPitch`'s `for` loop (line 44):
`minLag = Math.floor(sampleRate / maxPitch)` with `maxPitch = 400` Hz up to
`maxLag = Math.floor(sampleRate / minPitch)` with `minPitch = 80` Hz, subject
to the loop's second condition `lag < frame.length / 2`, i.e.
`2·lag < length` over the integers (both conditions are antitone in `lag`,
so the loop range equals this filter). -/
def pitchLags (frameLength : Nat) (sampleRate : ℚ) : List ℤ :=
  let minLag : ℤ := ⌊sampleRate / 400⌋
  let maxLag : ℤ := ⌊sampleRate / 80⌋
  ((List.range (maxLag - minLag + 1).toNat).map (fun (k : ℕ) => minLag + (k : ℤ))).filter
    (fun lag => 2 * lag < (frameLength : ℤ))

/-- `extractPitch` (lines 34–60): best strictly-increasing autocorrelation
peak over `pitchLags`; returns `sampleRate / bestLag` when a peak was found
(`bestLag ≠ 0`) and the resulting pitch lies in [80, 400], otherwise 0. -/
def extractPitch (frame : List ℚ) (sampleRate : ℚ) : ℚ :=
  let minPitch : ℚ := 80
  let maxPitch : ℚ := 400
  let best := (pitchLags frame.length sampleRate).foldl (fun acc lag =>
    let correlation := autocorrelation frame lag.toNat
    if correlation > acc.1 then (correlation, lag) else acc) ((0 : ℚ), (0 : ℤ))
  if best.2 = 0 then 0
  else
    let pitch := sampleRate / (best.2 : ℚ)
    if minPitch ≤ pitch ∧ pitch ≤ maxPitch then pitch else 0

/-- `extractRMS` (lines 67–73): `Math.sqrt(sumSquares / frame.length)`.  On a
zero-length frame this is `Math.sqrt(0 / 0) = NaN` in JavaScript, modelled as
`none`; `Math.sqrt` is embedded as `ratSqrt` (no theorem uses the value). -/
def extractRMS (frame : List ℚ) : Option ℚ :=
  if frame.length = 0 then none
  else some (ratSqrt ((frame.map (fun x => x * x)).sum / (frame.length : ℚ)))

/-- Sign-change count of `extractZCR`'s loop (lines 81–87): one count per
adjacent pair `(frame[i−1], frame[i])` that straddles zero. -/
def zeroCrossings (frame : List ℚ) : Nat :=
  (List.zipWith (fun prev cur =>
    if (cur ≥ 0 ∧ prev < 0) ∨ (cur < 0 ∧ prev ≥ 0) then 1 else 0)
    frame frame.tail).sum

/-- `extractZCR` (lines 80–89): `zeroCrossings / frame.length`.  On a
zero-length frame this is `0 / 0 = NaN`, modelled as `none`. -/
def extractZCR (frame : List ℚ) : Option ℚ :=
  if frame.length = 0 then none
  else some ((zeroCrossings frame : ℚ) / (frame.length : ℚ))

/-- `extractSpectralCentroid` (lines 97–105): external Meyda call, outcome a
parameter (`none` = thrown exception, missing or `NaN` result — all falsy);
`features.spectralCentroid || 0` then yields 0, and a present value is
returned as is. -/
def extractSpectralCentroid (meydaCentroid : Option ℚ) : ℚ :=
  meydaCentroid.getD 0

/-- The per-frame feature record returned by `extractAllFeatures`.  `rms`
and `zcr` are `Option ℚ` because the source can produce `NaN` (= `none`)
for them on a zero-length frame. -/
structure FeatureSet where
  mfcc : List ℚ
  pitch : ℚ
  rms : Option ℚ
  zcr : Option ℚ
  spectralCentroid : ℚ
deriving DecidableEq

/-- `extractAllFeatures` (lines 114–122): bundle all five per-frame
features.  All embedded functions are total: no exception can propagate. -/
def extractAllFeatures (frame : List ℚ) (sampleRate : ℚ) (numMFCC : Nat)
    (meydaMfcc : Option (List ℚ)) (meydaCentroid : Option ℚ) : FeatureSet :=
  { mfcc := extractMFCC meydaMfcc numMFCC
    pitch := extractPitch frame sampleRate
    rms := extractRMS frame
    zcr := extractZCR frame
    spectralCentroid := extractSpectralCentroid meydaCentroid }

/-! ## Gesture pipeline (`gesturePipeline.js`) -/

/-- One normalized hand keypoint. -/
structure Landmark where
  x : ℚ
  y : ℚ
  z : ℚ
deriving DecidableEq

/-- `FIST_THRESHOLD` — normalized distance below which a fingertip counts as
curled in. -/
def FIST_THRESHOLD : ℚ := 0.12

/-- `FIST_HOLD_DURATION_MS` — how long the fist must be held before
`gestureScore` flips to 1. -/
def FIST_HOLD_DURATION_MS : ℚ := 2000

/-- `FINGERTIP_INDICES` — index, middle, ring and pinky tips (thumb
excluded). -/
def FINGERTIP_INDICES : List (Fin 21) := [8, 12, 16, 20]

/-- `PALM_INDICES` — the five palm reference landmarks. -/
def PALM_INDICES : List (Fin 21) := [0, 5, 9, 13, 17]

/-- Palm center `(px, py)` — mean over `PALM_INDICES`
(`_computeFistConfidence`, lines 155–162). -/
def palmCenter (landmarks : Fin 21 → Landmark) : ℚ × ℚ :=
  ((PALM_INDICES.map (fun i => (landmarks i).x)).sum / (PALM_INDICES.length : ℚ),
   (PALM_INDICES.map (fun i => (landmarks i).y)).sum / (PALM_INDICES.length : ℚ))

/-- Number of designated fingertips within `FIST_THRESHOLD` of the palm
center (`_computeFistConfidence`, lines 164–170).  The source tests
`Math.sqrt(dx² + dy²) < FIST_THRESHOLD`; both sides are non-negative, so the
test is embedded exactly as `dx² + dy² < FIST_THRESHOLD²`. -/
def curledCount (landmarks : Fin 21 → Landmark) : Nat :=
  (FINGERTIP_INDICES.filter (fun tipIdx =>
    ((landmarks tipIdx).x - (palmCenter landmarks).1) ^ 2 +
      ((landmarks tipIdx).y - (palmCenter landmarks).2) ^ 2 <
      FIST_THRESHOLD ^ 2)).length

/-- `_computeFistConfidence` (lines 154–173): curled fingertips divided by
the four designated fingertips. -/
def computeFistConfidence (landmarks : Fin 21 → Landmark) : ℚ :=
  (curledCount landmarks : ℚ) / (FINGERTIP_INDICES.length : ℚ)

/-- Mutable fields of `GesturePipelineController` used by the fist-hold
logic (`fistStartTime`, `gestureScore`, `isFist`, `confidence`); the
`lastLandmarks` cache and the MediaPipe handles are never read by it and are
omitted. -/
structure GestureState where
  fistStartTime : Option ℚ
  gestureScore : ℚ
  isFist : Bool
  confidence : ℚ
deriving DecidableEq

/-- Constructor state of the controller. -/
def initGestureState : GestureState := ⟨none, 0, false, 0⟩

/-- `_resetFist` (lines 176–180). -/
def resetFist (st : GestureState) : GestureState :=
  { st with fistStartTime := none, isFist := false, gestureScore := 0 }

/-- `holdProgress` of the returned record (lines 142–144):
`this.fistStartTime ? min((now − start) / HOLD, 1) : 0` — both `null` and
the number `0` are falsy in JavaScript, hence the extra `t = 0` test. -/
def holdProgressOf (fistStartTime : Option ℚ) (now : ℚ) : ℚ :=
  match fistStartTime with
  | none => 0
  | some t => if t = 0 then 0 else min ((now - t) / FIST_HOLD_DURATION_MS) 1

/-- The record returned by `detectFrame`; the raw landmark list of the
source's return value is represented by the `landmarksPresent` flag, and
`holdProgress` is `none` on the no-hand return (the source object carries no
such field there). -/
structure GestureFrameResult where
  landmarksPresent : Bool
  isFist : Bool
  gestureScore : ℚ
  confidence : ℚ
  holdProgress : Option ℚ
deriving DecidableEq

/-- `detectFrame` (lines 90–146) for an initialized controller with a ready
video element (the two entry guards return a zero record without touching
state and are modelled by not invoking the function).  The MediaPipe
detection outcome is the `landmarks` parameter: `none` when no hand was
found.  Returns the new controller state and the returned record. -/
def detectFrame (st : GestureState) (landmarks : Option (Fin 21 → Landmark))
    (now : ℚ) : GestureState × GestureFrameResult :=
  match landmarks with
  | none =>
    let st' := resetFist st
    (st', ⟨false, false, st'.gestureScore, 0, none⟩)
  | some lm =>
    let fistConf := computeFistConfidence lm
    let st1 := { st with confidence := fistConf }
    if fistConf > 0.6 then
      let start := st1.fistStartTime.getD now
      let held := now - start
      let st2 :=
        if held ≥ FIST_HOLD_DURATION_MS then
          { st1 with fistStartTime := some start, gestureScore := 1, isFist := true }
        else { st1 with fistStartTime := some start }
      (st2, ⟨true, st2.isFist, st2.gestureScore, fistConf,
        some (holdProgressOf st2.fistStartTime now)⟩)
    else
      let st2 := resetFist st1
      (st2, ⟨true, st2.isFist, st2.gestureScore, fistConf,
        some (holdProgressOf st2.fistStartTime now)⟩)

/-- Run `detectFrame` over a list of `(detection outcome, timestamp)`
frames, oldest first, threading the controller state. -/
def runGesture (st : GestureState) :
    List (Option (Fin 21 → Landmark) × ℚ) → GestureState
  | [] => st
  | u :: rest => runGesture (detectFrame st u.1 u.2).1 rest

/-- A frame observation that counts as "currently fisted": a hand was
detected and its fist confidence exceeds 0.6. -/
def isFistInput (u : Option (Fin 21 → Landmark) × ℚ) : Bool :=
  match u.1 with
  | none => false
  | some lm => decide (computeFistConfidence lm > 0.6)

/-- A landmark set with every keypoint at the same position: all four
fingertips are at the palm center, so `computeFistConfidence` is 1. -/
def fistLandmarks : Fin 21 → Landmark := fun _ => ⟨1/2, 1/2, 0⟩

/-- A two-frame trace holding a full fist at times 0 and 2000 ms. -/
def fistTrace : List (Option (Fin 21 → Landmark) × ℚ) :=
  [(some fistLandmarks, 0), (some fistLandmarks, 2000)]

/-- Invariant of the fist-hold logic along a processed trace: without a
running hold timer the asserted score is 0; with a hold timer started at
`t0`, the processed trace ends in a non-empty run of consecutive fisted
frames whose first frame is at time `t0`, and a score of 1 implies that run
spans at least `FIST_HOLD_DURATION_MS`. -/
def HoldInvariant (trace : List (Option (Fin 21 → Landmark) × ℚ))
    (st : GestureState) : Prop :=
  (st.fistStartTime = none → st.gestureScore = 0) ∧
  (∀ t0, st.fistStartTime = some t0 →
    ∃ pre suf, trace = pre ++ suf ∧
      (∃ u, suf.head? = some u ∧ u.2 = t0) ∧
      (∀ v ∈ suf, isFistInput v = true) ∧
      (st.gestureScore = 1 →
        ∃ w, suf.getLast? = some w ∧ FIST_HOLD_DURATION_MS ≤ w.2 - t0))

end SafeSignal

namespace SafeSignal

/-- C3: for gesture in `{0,1}` and stress, motion in `[0,1]` (indeed for all
inputs), `calculateRisk` equals the clamped weighted sum, lies in `[0,1]`,
and is monotonically non-decreasing in each input independently (stated
jointly, which subsumes each coordinate). -/
theorem calculateRisk_clamp_bounds_mono :
    ∀ g₁ g₂ s₁ s₂ m₁ m₂ : ℚ, g₁ ≤ g₂ → s₁ ≤ s₂ → m₁ ≤ m₂ →
      calculateRisk g₁ s₁ m₁ = min (max (g₁ * 0.5 + s₁ * 0.3 + m₁ * 0.2) 0) 1 ∧
      0 ≤ calculateRisk g₁ s₁ m₁ ∧ calculateRisk g₁ s₁ m₁ ≤ 1 ∧
      calculateRisk g₁ s₁ m₁ ≤ calculateRisk g₂ s₂ m₂ := by
  intro g₁ g₂ s₁ s₂ m₁ m₂ hg hs hm
  refine ⟨rfl, ?_, ?_, ?_⟩
  · exact le_min (le_max_right _ 0) (by norm_num)
  · exact min_le_right _ 1
  · refine min_le_min (max_le_max ?_ le_rfl) le_rfl
    have h1 : g₁ * 0.5 ≤ g₂ * 0.5 := by nlinarith
    have h2 : s₁ * 0.3 ≤ s₂ * 0.3 := by nlinarith
    have h3 : m₁ * 0.2 ≤ m₂ * 0.2 := by nlinarith
    linarith

/-- Witness for C3 at `g = 0 ≤ 1`, `s = 1/2 ≤ 1`, `m = 0 ≤ 1/4`. -/
theorem calculateRisk_clamp_bounds_mono_witness :
    calculateRisk 0 (1/2) 0 = min (max (0 * 0.5 + (1/2) * 0.3 + 0 * 0.2) 0) 1 ∧
    0 ≤ calculateRisk 0 (1/2) 0 ∧ calculateRisk 0 (1/2) 0 ≤ 1 ∧
    calculateRisk 0 (1/2) 0 ≤ calculateRisk 1 1 (1/4) :=
  calculateRisk_clamp_bounds_mono 0 1 (1/2) 1 0 (1/4)
    (by norm_num) (by norm_num) (by norm_num)

/-- C4: the spike limiter caps upward jumps larger than `0.15` at
`previous + 0.15`, never limits downward movement, stores the returned value
as the new previous score unconditionally, and on the spec's concrete cases
maps `(prev 0.2, raw 0.9)` to `0.35` and `(prev 0.9, raw 0.1)` to `0.1`. -/
theorem applySpikeLimiter_spec :
    ∀ prev raw : ℚ,
      ((applySpikeLimiter prev raw).2 = (applySpikeLimiter prev raw).1) ∧
      (raw - prev > SPIKE_LIMIT → (applySpikeLimiter prev raw).1 = prev + SPIKE_LIMIT) ∧
      (raw - prev ≤ SPIKE_LIMIT → (applySpikeLimiter prev raw).1 = raw) ∧
      (applySpikeLimiter 0.2 0.9).1 = 0.35 ∧
      (applySpikeLimiter 0.9 0.1).1 = 0.1 := by
  intro prev raw
  refine ⟨rfl, ?_, ?_, by norm_num [applySpikeLimiter, SPIKE_LIMIT], by
    norm_num [applySpikeLimiter, SPIKE_LIMIT]⟩
  · intro h
    simp only [applySpikeLimiter, if_pos h]
  · intro h
    simp only [applySpikeLimiter, if_neg (not_lt.mpr h)]

/-- Witness for C4 at `prev = 0`, `raw = 1` (upward branch) and
`prev = 1`, `raw = 0` (downward branch). -/
theorem applySpikeLimiter_spec_witness :
    (applySpikeLimiter 0 1).1 = 0 + SPIKE_LIMIT ∧ (applySpikeLimiter 1 0).1 = 0 :=
  ⟨(applySpikeLimiter_spec 0 1).2.1 (by norm_num [SPIKE_LIMIT]),
   (applySpikeLimiter_spec 1 0).2.2.1 (by norm_num [SPIKE_LIMIT])⟩

/-- With a non-negative stored previous score, a raw score of `0` passes the
spike limiter unchanged and resets the stored score to `0`. -/
lemma applySpikeLimiter_zero (prev : ℚ) (h : 0 ≤ prev) :
    applySpikeLimiter prev 0 = (0, 0) := by
  have hn : ¬((0 : ℚ) - prev > SPIKE_LIMIT) := by
    simp only [SPIKE_LIMIT]; push_neg; linarith
  simp only [applySpikeLimiter, if_neg hn]

/-- With stored previous score `0`, the spike limiter's output never exceeds
`SPIKE_LIMIT`, whatever the raw score. -/
lemma applySpikeLimiter_fst_le (raw : ℚ) :
    (applySpikeLimiter 0 raw).1 ≤ SPIKE_LIMIT := by
  simp only [applySpikeLimiter]
  split_ifs with h
  · norm_num
  · push_neg at h; linarith

/-- C7: in `computeStressScore`, whenever the supplied noise floor exceeds
`NOISE_HIGH_THRESHOLD = 0.05` the effective RMS weight is strictly below the
default `0.25` and the pitch weight strictly above the default `0.30`, the
two shifts sum to zero (RMS reduced by 20 % of its own value, `0.05`, all
added to pitch); at or below the threshold the defaults are unchanged. -/
theorem noiseAdjustedWeights_spec :
    ∀ noiseFloor : ℚ,
      (noiseFloor > NOISE_HIGH_THRESHOLD →
        (noiseAdjustedWeights noiseFloor).2 < 0.25 ∧
        (noiseAdjustedWeights noiseFloor).1 > 0.30 ∧
        ((noiseAdjustedWeights noiseFloor).1 - 0.30) +
          ((noiseAdjustedWeights noiseFloor).2 - 0.25) = 0 ∧
        (noiseAdjustedWeights noiseFloor).2 = 0.25 - 0.05 ∧
        (noiseAdjustedWeights noiseFloor).1 = 0.30 + 0.05) ∧
      (noiseFloor ≤ NOISE_HIGH_THRESHOLD →
        noiseAdjustedWeights noiseFloor = (0.30, 0.25)) := by
  intro noiseFloor
  constructor
  · intro h
    simp only [noiseAdjustedWeights, if_pos h]
    norm_num
  · intro h
    simp only [noiseAdjustedWeights, if_neg (not_lt.mpr h)]

/-- Witness for C7 at `noiseFloor = 0.06` (high-noise branch) and
`noiseFloor = 0.05` (default branch). -/
theorem noiseAdjustedWeights_spec_witness :
    ((noiseAdjustedWeights 0.06).2 < 0.25 ∧
      (noiseAdjustedWeights 0.06).1 > 0.30 ∧
      ((noiseAdjustedWeights 0.06).1 - 0.30) +
        ((noiseAdjustedWeights 0.06).2 - 0.25) = 0 ∧
      (noiseAdjustedWeights 0.06).2 = 0.25 - 0.05 ∧
      (noiseAdjustedWeights 0.06).1 = 0.30 + 0.05) ∧
    noiseAdjustedWeights 0.05 = (0.30, 0.25) :=
  ⟨(noiseAdjustedWeights_spec 0.06).1 (by norm_num [NOISE_HIGH_THRESHOLD]),
   (noiseAdjustedWeights_spec 0.05).2 (by norm_num [NOISE_HIGH_THRESHOLD])⟩

/-- Raw clamped stress scores are non-negative (`Math.max(0, …)`). -/
lemma rawClampedStress_nonneg (fm : FeatureMatrix) (b : Option Baseline)
    (nf : ℚ) : 0 ≤ rawClampedStress fm b nf :=
  le_max_left 0 _

/-- The spike limiter maps a non-negative stored score and a non-negative
raw score to a non-negative stored score, so non-negativity of the stored
previous score is invariant. -/
lemma applySpikeLimiter_snd_nonneg (prev raw : ℚ) (hp : 0 ≤ prev)
    (hr : 0 ≤ raw) : 0 ≤ (applySpikeLimiter prev raw).2 := by
  simp only [applySpikeLimiter]
  split_ifs with h
  · simp only [SPIKE_LIMIT]; linarith
  · exact hr

/-- C9: a gated call of `computeStressScore` (missing matrix, empty pitch
track, or mean RMS below `VAD_MIN_RMS`) returns `0` and overwrites the spike
limiter's stored previous score with `0`; consequently the immediately
following call — whatever its features, baseline and noise floor — returns at
most `SPIKE_LIMIT = 0.15`.  The hypothesis `0 ≤ prev` holds for every
reachable stored score: it starts at 0 and the last conjunct shows every
call keeps it non-negative. -/
theorem computeStressScore_gated_reset :
    ∀ (fm : Option FeatureMatrix) (b : Option Baseline) (nf prev : ℚ),
      0 ≤ prev →
      (gatedInput fm = true → computeStressScore fm b nf prev = (0, 0)) ∧
      (∀ (fm₂ : Option FeatureMatrix) (b₂ : Option Baseline) (nf₂ : ℚ),
        (computeStressScore fm₂ b₂ nf₂ 0).1 ≤ SPIKE_LIMIT) ∧
      0 ≤ (computeStressScore fm b nf prev).2 := by
  intro fm b nf prev hprev
  refine ⟨?_, ?_, ?_⟩
  · intro hg
    cases fm with
    | none => exact applySpikeLimiter_zero prev hprev
    | some m =>
      simp only [gatedInput, Bool.or_eq_true, beq_iff_eq, decide_eq_true_eq] at hg
      rcases hg with hp | hr
      · simp only [computeStressScore, if_pos hp]
        exact applySpikeLimiter_zero prev hprev
      · simp only [computeStressScore]
        split_ifs
        · exact applySpikeLimiter_zero prev hprev
        · exact applySpikeLimiter_zero prev hprev
  · intro fm₂ b₂ nf₂
    cases fm₂ with
    | none => exact applySpikeLimiter_fst_le 0
    | some m =>
      simp only [computeStressScore]
      split_ifs
      · exact applySpikeLimiter_fst_le 0
      · exact applySpikeLimiter_fst_le 0
      · exact applySpikeLimiter_fst_le _
  · cases fm with
    | none => exact applySpikeLimiter_snd_nonneg prev 0 hprev le_rfl
    | some m =>
      simp only [computeStressScore]
      split_ifs
      · exact applySpikeLimiter_snd_nonneg prev 0 hprev le_rfl
      · exact applySpikeLimiter_snd_nonneg prev 0 hprev le_rfl
      · exact applySpikeLimiter_snd_nonneg prev _ hprev
          (rawClampedStress_nonneg m b nf)

/-- Witness for C9: the empty feature matrix is gated, a gated call with
stored score `1/2` returns `(0, 0)`, and the next call is capped. -/
theorem computeStressScore_gated_reset_witness :
    gatedInput (some ⟨[], [], [], [], []⟩) = true ∧
    computeStressScore (some ⟨[], [], [], [], []⟩) none 0 (1/2) = (0, 0) ∧
    (computeStressScore none none 0 0).1 ≤ SPIKE_LIMIT := by
  have h := computeStressScore_gated_reset (some ⟨[], [], [], [], []⟩) none 0 (1/2)
    (by norm_num)
  exact ⟨by decide, h.1 (by decide), h.2.1 none none 0⟩

/-- C5: while the pipeline is still calibrating, a processing step either
emits nothing (rolling window too short) or emits stress score exactly `0`,
whatever the observed audio features are. -/
theorem processAudioFrame_calibrating_emits_zero :
    ∀ (st : PipelineState) (inp : FrameInput),
      st.isCalibrating = true →
      (processAudioFrame st inp).2 = none ∨ (processAudioFrame st inp).2 = some 0 := by
  intro st inp hcal
  rcases Bool.eq_false_or_eq_true inp.hasVoice with hv | hv
  · by_cases hw : inp.windowLength < 1000
    · left; simp [processAudioFrame, hv, hw]
    · right; simp [processAudioFrame, hv, hw, hcal]
  · right; simp [processAudioFrame, hv]

/-- Witness for C5: a calibrating state observing a loud voiced window still
emits `0`. -/
theorem processAudioFrame_calibrating_emits_zero_witness :
    (processAudioFrame
      ⟨true, 0, [], none, [], 0, 0, newSmoother 5, 0⟩
      ⟨true, 0, 24000, ⟨[[1, 1]], [200], [1, 1], [1/2], [3000]⟩, 1000⟩).2 = none ∨
    (processAudioFrame
      ⟨true, 0, [], none, [], 0, 0, newSmoother 5, 0⟩
      ⟨true, 0, 24000, ⟨[[1, 1]], [200], [1, 1], [1/2], [3000]⟩, 1000⟩).2 = some 0 :=
  processAudioFrame_calibrating_emits_zero
    ⟨true, 0, [], none, [], 0, 0, newSmoother 5, 0⟩
    ⟨true, 0, 24000, ⟨[[1, 1]], [200], [1, 1], [1/2], [3000]⟩, 1000⟩ rfl

/-- A tick of the countdown interval is a no-op once the interval has been
cleared. -/
lemma countdownTick_inactive (loc : Option Location) (contacts : List Contact)
    (st : DashState) (h : st.countdownActive = false) :
    countdownTick loc contacts st = st := by
  simp [countdownTick, h]

/-- Countdown ticks leave a cleared-interval state unchanged. -/
lemma runCountdown_inactive (loc : Option Location) (contacts : List Contact)
    (n : Nat) (st : DashState) (h : st.countdownActive = false) :
    runCountdown loc contacts n st = st := by
  induction n with
  | zero => rfl
  | succ n ih => rw [runCountdown, countdownTick_inactive loc contacts st h, ih]

/-- After entering the pre-alert, five countdown firings reach the explicit
triggered state: countdown 0, interval cleared, exactly one emitted event. -/
lemma runCountdown_five (loc : Option Location) (contacts : List Contact) :
    runCountdown loc contacts 5 (enterPreAlert initDash) =
      ⟨true, 0, false, false, [handleEmergency loc contacts]⟩ := rfl

/-- C1: if the pre-alert countdown runs to 0 with no cancellation (any
`n ≥ 5` interval firings), exactly one emergency event is emitted; its
location is the lookup result when the lookup succeeds and the fallback
`getMockLocation` when it fails, so the trigger always carries a concrete
location. -/
theorem preAlert_triggers_exactly_once :
    ∀ (loc : Option Location) (contacts : List Contact) (n : Nat), 5 ≤ n →
      (runCountdown loc contacts n (enterPreAlert initDash)).events =
        [handleEmergency loc contacts] ∧
      (runCountdown loc contacts n (enterPreAlert initDash)).countdown = 0 ∧
      (∀ l, loc = some l → (handleEmergency loc contacts).location = l) ∧
      (loc = none → (handleEmergency loc contacts).location = getMockLocation) := by
  intro loc contacts n hn
  obtain ⟨k, rfl⟩ := Nat.exists_eq_add_of_le hn
  have hsplit : runCountdown loc contacts (5 + k) (enterPreAlert initDash) =
      runCountdown loc contacts k
        (runCountdown loc contacts 5 (enterPreAlert initDash)) := by
    rw [runCountdown_five]
    rw [Nat.add_comm]
    rfl
  rw [hsplit, runCountdown_five, runCountdown_inactive loc contacts k _ rfl]
  refine ⟨rfl, rfl, ?_, ?_⟩
  · intro l hl; subst hl; rfl
  · intro hl; subst hl; rfl

/-- Witness for C1 at `n = 5` with a failed location lookup and an empty
contact list. -/
theorem preAlert_triggers_exactly_once_witness :
    (runCountdown none [] 5 (enterPreAlert initDash)).events =
      [handleEmergency none []] ∧
    (runCountdown none [] 5 (enterPreAlert initDash)).countdown = 0 ∧
    (∀ l, (none : Option Location) = some l →
      (handleEmergency none []).location = l) ∧
    ((none : Option Location) = none →
      (handleEmergency none []).location = getMockLocation) :=
  preAlert_triggers_exactly_once none [] 5 (by norm_num)

/-- C2: a cancellation returns the machine to the idle configuration — the
pre-alert overlay is hidden, the countdown is reset and its interval cleared,
and the pending sustain (high-risk) timer discarded — and no emergency event
is ever emitted afterwards from that pre-alert, however many countdown ticks
follow; in particular a pre-alert cancelled at countdown = 3 (two firings
after entry) has emitted nothing. -/
theorem cancelAlert_returns_to_idle :
    ∀ (loc : Option Location) (contacts : List Contact) (st : DashState) (n : Nat),
      (cancelAlert st).showPreAlert = false ∧
      (cancelAlert st).countdownActive = false ∧
      (cancelAlert st).highRiskTimerPending = false ∧
      (cancelAlert st).countdown = 5 ∧
      (runCountdown loc contacts n (cancelAlert st)).events = st.events ∧
      (runCountdown loc contacts 2 (enterPreAlert initDash)).countdown = 3 ∧
      (runCountdown loc contacts 2 (enterPreAlert initDash)).events = [] := by
  intro loc contacts st n
  refine ⟨rfl, rfl, rfl, rfl, ?_, rfl, rfl⟩
  rw [runCountdown_inactive loc contacts n (cancelAlert st) rfl]
  rfl

/-- C6 counterexample: on the zero-length frame the extracted `rms` is the
JavaScript `NaN` (`Math.sqrt(0 / 0)`, modelled `none`), not 0 — the claimed
all-zero feature set does not hold there (nor for `zcr`, likewise `0/0`). -/
theorem extractAllFeatures_empty_rms_not_zero :
    ¬((extractAllFeatures [] 16000 40 none none).rms = some 0 ∧
      (extractAllFeatures [] 16000 40 none none).zcr = some 0) := by
  intro h
  exact Option.noConfusion (h.1 : (none : Option ℚ) = some 0)

/-- At 16 kHz no candidate lag survives the `lag < 0/2` condition of a
zero-length frame. -/
lemma pitchLags_zero_16000 : pitchLags 0 16000 = [] := by
  simp only [pitchLags]
  rw [List.filter_eq_nil_iff]
  intro a ha
  simp only [List.mem_map, List.mem_range] at ha
  obtain ⟨k, _, rfl⟩ := ha
  have hm : ⌊(16000 : ℚ) / 400⌋ = (40 : ℤ) := by norm_num
  rw [hm]
  simp only [Nat.cast_zero, decide_eq_true_eq, not_lt]
  omega

/-- The autocorrelation search over a zero-length frame finds no peak, so
the extracted pitch is 0. -/
lemma extractPitch_nil_16000 : extractPitch [] 16000 = 0 := by
  simp [extractPitch, pitchLags_zero_16000]

/-- C6 amended: a zero-length frame yields zero MFCC vector (when the
external Meyda call fails), pitch 0 and spectral centroid 0, with no
exception propagated (every embedded extractor is a total function) — but
`rms` and `zcr` are `NaN` (`0/0`, modelled `none`), not 0. -/
theorem extractAllFeatures_empty_spec :
    extractAllFeatures [] 16000 40 none none =
      ⟨List.replicate 40 0, 0, none, none, 0⟩ := by
  simp [extractAllFeatures, extractMFCC, extractRMS, extractZCR,
    extractSpectralCentroid, extractPitch_nil_16000]

/-- C10: for every 21-point landmark set the fist confidence is one of
`0, 1/4, 1/2, 3/4, 1` (curled fingertips out of four), and the "currently
fisted" test `confidence > 0.6` holds exactly when at least three of the
four designated fingertips are within the threshold distance of the palm
center. -/
theorem computeFistConfidence_quantized :
    ∀ landmarks : Fin 21 → Landmark,
      (computeFistConfidence landmarks = 0 ∨ computeFistConfidence landmarks = 1/4 ∨
       computeFistConfidence landmarks = 1/2 ∨ computeFistConfidence landmarks = 3/4 ∨
       computeFistConfidence landmarks = 1) ∧
      (computeFistConfidence landmarks > 0.6 ↔ 3 ≤ curledCount landmarks) := by
  intro landmarks
  have heq : computeFistConfidence landmarks = (curledCount landmarks : ℚ) / 4 := rfl
  have h4 : curledCount landmarks ≤ 4 := List.length_filter_le _ _
  rw [heq]
  set c := curledCount landmarks with hc
  clear_value c
  interval_cases c <;> norm_num

/-- A non-fisted observation (no hand, or confidence not above 0.6) resets
the hold timer and the asserted score. -/
lemma detectFrame_not_fist (st : GestureState)
    (lmOpt : Option (Fin 21 → Landmark)) (now : ℚ)
    (h : isFistInput (lmOpt, now) = false) :
    (detectFrame st lmOpt now).1.fistStartTime = none ∧
    (detectFrame st lmOpt now).1.gestureScore = 0 := by
  cases lmOpt with
  | none => exact ⟨rfl, rfl⟩
  | some lm =>
    have h' : ¬(computeFistConfidence lm > 0.6) := by
      simpa [isFistInput] using h
    simp only [detectFrame]
    rw [if_neg h']
    exact ⟨rfl, rfl⟩

/-- A fisted observation keeps (or starts) the hold timer, and asserts the
score exactly when the held duration reached the threshold or the score was
already asserted. -/
lemma detectFrame_fist (st : GestureState) (lm : Fin 21 → Landmark) (now : ℚ)
    (h : computeFistConfidence lm > 0.6) :
    (detectFrame st (some lm) now).1.fistStartTime =
      some (st.fistStartTime.getD now) ∧
    ((detectFrame st (some lm) now).1.gestureScore = 1 ↔
      (FIST_HOLD_DURATION_MS ≤ now - st.fistStartTime.getD now ∨
        st.gestureScore = 1)) := by
  by_cases hd : FIST_HOLD_DURATION_MS ≤ now - st.fistStartTime.getD now
  · constructor
    · simp [detectFrame, h, hd]
    · simp [detectFrame, h, hd]
  · constructor
    · simp [detectFrame, h, hd]
    · simp [detectFrame, h, hd]

/-- Running a gesture trace splits along list concatenation. -/
lemma runGesture_append (st : GestureState)
    (l₁ l₂ : List (Option (Fin 21 → Landmark) × ℚ)) :
    runGesture st (l₁ ++ l₂) = runGesture (runGesture st l₁) l₂ := by
  induction l₁ generalizing st with
  | nil => rfl
  | cons u rest ih =>
    simp only [List.cons_append, runGesture]
    exact ih _

/-- The fist-hold invariant holds along every time-ordered trace processed
from the initial controller state. -/
lemma holdInvariant_run
    (trace : List (Option (Fin 21 → Landmark) × ℚ))
    (hchain : List.Chain' (fun a b => a.2 ≤ b.2) trace) :
    HoldInvariant trace (runGesture initGestureState trace) := by
  induction trace using List.reverseRecOn with
  | nil =>
    exact ⟨fun _ => rfl, fun t0 h => Option.noConfusion h⟩
  | append_singleton l u ih =>
    have hchain_l : List.Chain' (fun a b => a.2 ≤ b.2) l :=
      (List.chain'_append.mp hchain).1
    have hlast : ∀ x ∈ l.getLast?, x.2 ≤ u.2 := by
      intro x hx
      exact (List.chain'_append.mp hchain).2.2 x hx u rfl
    have ih' := ih hchain_l
    rw [runGesture_append]
    set st := runGesture initGestureState l with hst
    show HoldInvariant (l ++ [u]) (runGesture st [u])
    have hrun : runGesture st [u] = (detectFrame st u.1 u.2).1 := rfl
    rw [hrun]
    by_cases hf : isFistInput u = true
    · obtain ⟨lm, hlm, hconf⟩ :
        ∃ lm, u.1 = some lm ∧ computeFistConfidence lm > 0.6 := by
        cases hu : u.1 with
        | none => rw [isFistInput] at hf; simp [hu] at hf
        | some lm =>
          refine ⟨lm, rfl, ?_⟩
          rw [isFistInput] at hf
          simpa [hu] using hf
      rw [hlm]
      have hdf := detectFrame_fist st lm u.2 hconf
      cases hsts : st.fistStartTime with
      | none =>
        have hsc0 : st.gestureScore = 0 := ih'.1 hsts
        have hfst : (detectFrame st (some lm) u.2).1.fistStartTime = some u.2 := by
          rw [hdf.1, hsts]
          rfl
        constructor
        · intro hnone; rw [hfst] at hnone; exact Option.noConfusion hnone
        · intro t0 ht0
          rw [hfst] at ht0
          obtain rfl : u.2 = t0 := Option.some.inj ht0
          refine ⟨l, [u], rfl, ⟨u, rfl, rfl⟩, ?_, ?_⟩
          · intro v hv
            rw [List.mem_singleton] at hv
            subst hv; exact hf
          · intro hsc1
            rcases hdf.2.mp hsc1 with hheld | hone
            · rw [hsts] at hheld
              simp only [Option.getD_none, sub_self] at hheld
              exact absurd hheld (by norm_num [FIST_HOLD_DURATION_MS])
            · rw [hsc0] at hone
              exact absurd hone (by norm_num)
      | some t0' =>
        have hfst : (detectFrame st (some lm) u.2).1.fistStartTime = some t0' := by
          rw [hdf.1, hsts]
          rfl
        obtain ⟨pre, suf, hl, ⟨u0, hhead, hu0t⟩, hallfist, hscore⟩ := ih'.2 t0' hsts
        constructor
        · intro hnone; rw [hfst] at hnone; exact Option.noConfusion hnone
        · intro t0 ht0
          rw [hfst] at ht0
          obtain rfl : t0' = t0 := Option.some.inj ht0
          have hsufne : suf ≠ [] := by
            cases suf
            · exact Option.noConfusion hhead
            · simp
          refine ⟨pre, suf ++ [u], by rw [hl, List.append_assoc],
            ⟨u0, ?_, hu0t⟩, ?_, ?_⟩
          · rw [List.head?_append_of_ne_nil _ hsufne]
            exact hhead
          · intro v hv
            rw [List.mem_append] at hv
            rcases hv with hv | hv
            · exact hallfist v hv
            · rw [List.mem_singleton] at hv
              subst hv; exact hf
          · intro hsc1
            refine ⟨u, List.getLast?_append_cons suf u [], ?_⟩
            rcases hdf.2.mp hsc1 with hheld | hone
            · rw [hsts] at hheld
              simpa using hheld
            · obtain ⟨w, hwlast, hwge⟩ := hscore hone
              have hlastl : l.getLast? = some w := by
                rw [hl, List.getLast?_append_of_ne_nil _ hsufne]
                exact hwlast
              have hwu : w.2 ≤ u.2 := hlast w hlastl
              linarith
    · have hnf : isFistInput u = false := by
        cases hb : isFistInput u
        · rfl
        · exact absurd hb hf
      obtain ⟨h1, h2⟩ := detectFrame_not_fist st u.1 u.2 hnf
      exact ⟨fun _ => h2, fun t0 ht0 => absurd (h1 ▸ ht0) (by simp)⟩

/-- C8: (i) any observation with no hand detected or fist confidence not
above 0.6 resets the hold timer to `none` and the asserted score to 0;
(ii) along every time-ordered update sequence from the initial state, the
asserted score is 1 only if the sequence ends in an unbroken run of fisted
observations (confidence > 0.6) spanning at least
`FIST_HOLD_DURATION_MS = 2000` ms — so 1999 ms of sustained hold, or a hold
broken by one sub-threshold frame, leaves the score at 0. -/
theorem gestureHold_spec :
    (∀ (st : GestureState) (lmOpt : Option (Fin 21 → Landmark)) (now : ℚ),
      isFistInput (lmOpt, now) = false →
      (detectFrame st lmOpt now).1.fistStartTime = none ∧
      (detectFrame st lmOpt now).1.gestureScore = 0) ∧
    (∀ trace : List (Option (Fin 21 → Landmark) × ℚ),
      List.Chain' (fun a b => a.2 ≤ b.2) trace →
      (runGesture initGestureState trace).gestureScore = 1 →
      ∃ pre suf u w, trace = pre ++ suf ∧ suf.head? = some u ∧
        suf.getLast? = some w ∧ (∀ v ∈ suf, isFistInput v = true) ∧
        FIST_HOLD_DURATION_MS ≤ w.2 - u.2) := by
  constructor
  · exact detectFrame_not_fist
  · intro trace hchain hscore
    have hinv := holdInvariant_run trace hchain
    cases hsts : (runGesture initGestureState trace).fistStartTime with
    | none =>
      rw [hinv.1 hsts] at hscore
      exact absurd hscore (by norm_num)
    | some t0 =>
      obtain ⟨pre, suf, hl, ⟨u, hhead, hu2⟩, hallfist, hsc⟩ := hinv.2 t0 hsts
      obtain ⟨w, hwlast, hwge⟩ := hsc hscore
      refine ⟨pre, suf, u, w, hl, hhead, hwlast, hallfist, ?_⟩
      rw [hu2]
      exact hwge

/-- On the all-coincident landmark set every fingertip sits on the palm
center, so the fist confidence is 1. -/
lemma computeFistConfidence_fistLandmarks :
    computeFistConfidence fistLandmarks = 1 := by
  norm_num [computeFistConfidence, curledCount, palmCenter, FINGERTIP_INDICES,
    PALM_INDICES, fistLandmarks, FIST_THRESHOLD]

/-- Holding the fist at times 0 and 2000 ms asserts the gesture. -/
lemma runGesture_fistTrace :
    (runGesture initGestureState fistTrace).gestureScore = 1 := by
  simp only [fistTrace, runGesture]
  norm_num [detectFrame, computeFistConfidence_fistLandmarks, initGestureState,
    FIST_HOLD_DURATION_MS]

/-- Witness for C8: a no-hand frame resets the state, and the concrete
two-frame 2000 ms fist hold yields score 1 with the guaranteed fisted
suffix. -/
theorem gestureHold_spec_witness :
    ((detectFrame initGestureState none 500).1.fistStartTime = none ∧
     (detectFrame initGestureState none 500).1.gestureScore = 0) ∧
    (∃ pre suf u w, fistTrace = pre ++ suf ∧ suf.head? = some u ∧
      suf.getLast? = some w ∧ (∀ v ∈ suf, isFistInput v = true) ∧
      FIST_HOLD_DURATION_MS ≤ w.2 - u.2) :=
  ⟨gestureHold_spec.1 initGestureState none 500 rfl,
   gestureHold_spec.2 fistTrace
    (by norm_num [fistTrace, List.chain'_cons, List.chain'_singleton])
    runGesture_fistTrace⟩

end SafeSignal
